import Mathlib

/-!
Verification development for `src/server/server.js` of the homeswift.ai
repository: an Express application that composes a fixed middleware
pipeline (CORS, helmet, rate limiting, cookie/body parsing, sessions,
logging, fixed endpoints, an authentication chain, mounted routers, a 404
fallback and two error handlers).

The file shallowly embeds the configuration values of the server and its
request-processing pipeline as executable Lean definitions, then states
and proves the specification claims about them.
-/

namespace HomeSwift

/-! ## JSON values (response payloads) -/

/-- A JSON value, used to state exact response payload shapes. -/
inductive Json where
  | null
  | bool (b : Bool)
  | num (n : Int)
  | str (s : String)
  | obj (fields : List (String × Json))
deriving Repr, BEq

/-! ## CORS origin matching (`allowedOrigins` / `corsOptions.origin`) -/

/-- Tail of the localhost regex after the literal `localhost`:
`(:\d+)?$` — either nothing, or a colon followed by one or more digits. -/
def localhostTail : List Char → Bool
  | [] => true
  | ':' :: ds => !ds.isEmpty && ds.all Char.isDigit
  | _ => false

/-- Strip an expected literal head from a character list: `some` of the
remainder when the list starts with the expected characters, else `none`. -/
def stripLit : List Char → List Char → Option (List Char)
  | [], cs => some cs
  | _ :: _, [] => none
  | p :: ps, c :: cs => if c = p then stripLit ps cs else none

/-- The regex `^https?:\/\/localhost(:\d+)?$` from `allowedOrigins`: the
scheme part (with or without the s), the literal `localhost`, then an
optional port. -/
def localhostMatch (o : String) : Bool :=
  match stripLit "https://localhost".data o.data with
  | some rest => localhostTail rest
  | none =>
      match stripLit "http://localhost".data o.data with
      | some rest => localhostTail rest
      | none => false

/-- The regex `\.vercel\.app$` from `allowedOrigins`: the origin ends with
the literal `.vercel.app`. -/
def vercelMatch (o : String) : Bool :=
  ".vercel.app".data.isSuffixOf o.data

/-- An entry of the `allowedOrigins` array: either a regex (represented by
its decision function) or an exact string. -/
inductive OriginPattern where
  | regex (test : String → Bool)
  | exact (s : String)

/-- Evaluation of one pattern entry: a regex entry tests the origin, a
string entry compares with strict equality (`pattern === origin`). -/
def patternMatches (p : OriginPattern) (o : String) : Bool :=
  match p with
  | .regex t => t o
  | .exact s => s == o

/-- The `allowedOrigins` array, in source order. -/
def allowedOrigins : List OriginPattern :=
  [ .regex localhostMatch,
    .regex vercelMatch,
    .exact "https://homeswift.ai",
    .exact "https://www.homeswift.ai" ]

/-- Membership test `allowedOrigins.some(pattern => ...)` from
`corsOptions.origin`. -/
def isAllowedOrigin (o : String) : Bool :=
  allowedOrigins.any (fun p => patternMatches p o)

/-- Decision of the `corsOptions.origin` callback. -/
inductive CorsDecision where
  | allow
  | deny (msg : String)
deriving Repr, BEq, DecidableEq

/-- The `corsOptions.origin` callback: no origin is allowed outright;
otherwise the origin is checked against `allowedOrigins`, and on failure
the callback errors with the warning message. -/
def corsOrigin (origin : Option String) : CorsDecision :=
  match origin with
  | none => .allow
  | some o =>
      if isAllowedOrigin o then .allow
      else .deny ("CORS policy: " ++ o ++ " not allowed")

/-- The `corsOptions.credentials` flag. -/
def corsCredentials : Bool := true

/-- The `corsOptions.maxAge` value, in seconds. -/
def corsMaxAge : Nat := 86400

/-- The `corsOptions.preflightContinue` flag. -/
def corsPreflightContinue : Bool := false

/-- The `corsOptions.optionsSuccessStatus` value. -/
def corsOptionsSuccessStatus : Nat := 204

/-! ## Process environment and derived configuration -/

/-- The environment variables the server reads. A `none` field is an
unset variable. -/
structure ProcessEnv where
  nodeEnv : Option String := none
  rateLimitWindowMs : Option String := none
  rateLimitMaxRequests : Option String := none
  sessionSecret : Option String := none
  port : Option String := none
deriving Repr

/-- The longest leading run of decimal digits. -/
def leadDigits : List Char → List Char
  | [] => []
  | c :: cs => if c.isDigit then c :: leadDigits cs else []

/-- Numeric value of a list of decimal digits. -/
def digitsToNat (ds : List Char) : Nat :=
  ds.foldl (fun a c => a * 10 + (c.toNat - 48)) 0

/-- Base-10 digit parsing of the head of a character list; `none` when no
leading digit exists (JavaScript `NaN`). -/
def parseIntCore (cs : List Char) : Option Int :=
  let ds := leadDigits cs
  if ds.isEmpty then none else some (Int.ofNat (digitsToNat ds))

/-- JavaScript `parseInt` on an optional environment string: skip leading
whitespace, allow a sign, read leading base-10 digits; `none` models `NaN`
(missing variable or no digits). -/
def parseIntJs : Option String → Option Int
  | none => none
  | some s =>
      let cs := s.data.dropWhile (fun c => c = ' ' || c = '\t' || c = '\n' || c = '\r')
      match cs with
      | '-' :: rest => (parseIntCore rest).map (fun n => -n)
      | '+' :: rest => parseIntCore rest
      | _ => parseIntCore cs

/-- JavaScript `a || d` where `a` is a parsed integer: `NaN` and `0` are
falsy and fall back to the default. -/
def jsOrInt (v : Option Int) (d : Int) : Int :=
  match v with
  | none => d
  | some n => if n = 0 then d else n

/-- JavaScript `a || d` on an optional string: missing and empty are falsy. -/
def jsOrStr (v : Option String) (d : String) : String :=
  match v with
  | none => d
  | some s => if s = "" then d else s

/-- The production check of the source (`isProduction`, line 137): NODE_ENV
equals the string production. The same comparison guards the trust-proxy
setting, morgan and error redaction. -/
def isProduction (env : ProcessEnv) : Bool :=
  env.nodeEnv == some "production"

/-- Whether the trust-proxy setting (`app.set`, line 22) is applied to the
app: exactly in production. -/
def trustProxy (env : ProcessEnv) : Bool :=
  isProduction env

/-- Window duration of the limiter: RATE_LIMIT_WINDOW_MS parsed with
`parseInt`, a falsy result defaulting to `15 * 60 * 1000`. -/
def rateWindowMs (env : ProcessEnv) : Int :=
  jsOrInt (parseIntJs env.rateLimitWindowMs) (15 * 60 * 1000)

/-- Request ceiling of the limiter: RATE_LIMIT_MAX_REQUESTS parsed with
`parseInt`, a falsy result defaulting to `100`. -/
def rateMaxRequests (env : ProcessEnv) : Int :=
  jsOrInt (parseIntJs env.rateLimitMaxRequests) 100

/-- The `limiter.message` payload. -/
def rateLimitPayload : Json :=
  .obj [("error", .str "Too many requests, please try again later.")]

/-- The secure flag of the session cookie: forced `true`, or the
auto-negotiated setting in non-production. -/
inductive SecureFlag where
  | auto
  | flag (b : Bool)
deriving Repr, BEq, DecidableEq

/-- The `sessionConfig` object (lines 140–155), with the configuration
values the session middleware receives. -/
structure SessionConfig where
  secret : String
  resave : Bool
  saveUninitialized : Bool
  proxy : Bool
  cookieSecure : SecureFlag
  cookieHttpOnly : Bool
  cookieSameSite : String
  cookieMaxAgeMs : Nat
  cookieDomain : String
  storeCheckPeriodMs : Nat
deriving Repr

/-- Construction of `sessionConfig` from the environment, as in the source. -/
def sessionConfig (env : ProcessEnv) : SessionConfig :=
  { secret := jsOrStr env.sessionSecret "dev-secret-key"
    resave := false
    saveUninitialized := false
    proxy := isProduction env
    cookieSecure := if isProduction env then .flag true else .auto
    cookieHttpOnly := true
    cookieSameSite := if isProduction env then "none" else "lax"
    cookieMaxAgeMs := 1000 * 60 * 60 * 2
    cookieDomain := if isProduction env then ".homeswift-ai.vercel.app" else "localhost"
    storeCheckPeriodMs := 15 * 60 * 1000 }

/-! ## Rate-limiter counting model

The `express-rate-limit` middleware counts hits per client identity in a
fixed window of `windowMs` milliseconds and allows a hit exactly when the
count within the current window stays at or below `max`. -/

/-- Per-client state of the rate-limit store. -/
structure RateRecord where
  count : Nat
  windowStart : Nat
deriving Repr, BEq, DecidableEq

/-- One hit from a client at time `now` (milliseconds): an elapsed window
resets the count; the hit is allowed when the new count is at most
`maxReq`. -/
def rateHit (wMs maxReq : Nat) (now : Nat) (rec : Option RateRecord) :
    RateRecord × Bool :=
  let base : RateRecord :=
    match rec with
    | some r => if now < r.windowStart + wMs then r else { count := 0, windowStart := now }
    | none => { count := 0, windowStart := now }
  let r : RateRecord := { base with count := base.count + 1 }
  (r, r.count ≤ maxReq)

/-- Iterated hits from one client, all at time `now`. -/
def rateHitMany (wMs maxReq now : Nat) : Nat → Option RateRecord → Option RateRecord
  | 0, rec => rec
  | k + 1, rec => rateHitMany wMs maxReq now k (some (rateHit wMs maxReq now rec).1)

/-! ## Session store model

The session middleware is configured with `resave: false`,
`saveUninitialized: false`, a two-hour cookie `maxAge` and a memory store
with `checkPeriod` fifteen minutes: a session is persisted when the request
modifies it, an existing session is touched (expiry refreshed) on every
access, and a periodic sweep purges entries whose expiry has passed. -/

/-- The per-session data this server actually uses: the view counter of
the session-test route. `none` is an unset `views` property. -/
structure SessionData where
  views : Option Int := none
deriving Repr, BEq, DecidableEq

/-- One entry of the in-memory session store. -/
structure StoreEntry where
  sid : String
  data : SessionData
  expiresAt : Nat
deriving Repr, BEq, DecidableEq

/-- The in-memory session store: a list of live entries. -/
abbrev SessionStore : Type := List StoreEntry

/-- Value `1000 * 60 * 60 * 2`: the sliding expiry window, in ms. -/
def sessionMaxAgeMs : Nat := (sessionConfig {}).cookieMaxAgeMs

/-- Value `15 * 60 * 1000`: the sweep interval of the store, in ms. -/
def sessionCheckPeriodMs : Nat := (sessionConfig {}).storeCheckPeriodMs

/-- Store update at the end of a request at time `now` for session `sid`:
a modified session is saved with a fresh expiry (this creates the entry on
the first trackable request, since `saveUninitialized` is false an
untouched new session is not stored); an unmodified but existing session
is touched, refreshing its expiry to `now + maxAge` (since `resave` is
false the data is not rewritten). -/
def sessionAfterRequest (now : Nat) (sid : String) (modified : Bool)
    (data : SessionData) (store : SessionStore) : SessionStore :=
  if modified then
    { sid := sid, data := data, expiresAt := now + sessionMaxAgeMs } ::
      (store.filter (fun e => e.sid ≠ sid))
  else
    store.map (fun e => if e.sid = sid then { e with expiresAt := now + sessionMaxAgeMs } else e)

/-- The periodic sweep at time `now`: purge every expired entry. -/
def sessionSweep (now : Nat) (store : SessionStore) : SessionStore :=
  store.filter (fun e => now < e.expiresAt)

/-- Look up a live session. -/
def sessionLookup (sid : String) (store : SessionStore) : Option SessionData :=
  (store.find? (fun e => e.sid = sid)).map (fun e => e.data)

/-! ## The session-test handler (`GET /api/session-test`) -/

/-- JavaScript falsiness of the optional counter, as in the source check
on the views property of the session. -/
def viewsFalsy (v : Option Int) : Bool :=
  match v with
  | none => true
  | some n => n == 0

/-- Body of the `/api/session-test` handler: reset a falsy counter to 0,
increment it, and answer with the new count. Returns the updated session
and the count sent in the response. -/
def sessionTestHandler (s : SessionData) : SessionData × Int :=
  let v0 : Int := if viewsFalsy s.views then 0 else s.views.getD 0
  let v1 : Int := v0 + 1
  ({ s with views := some v1 }, v1)

/-- JSON rendering of the session object (its `views` property). -/
def sessionJson (s : SessionData) : Json :=
  .obj (match s.views with
    | none => []
    | some v => [("views", .num v)])

/-! ## The request pipeline -/

/-- Content type of the request body, as the two body parsers see it. -/
inductive ContentType where
  | jsonType
  | urlencodedType
  | otherType
deriving Repr, DecidableEq

/-- An inbound HTTP request together with the per-request facts the
middleware stack consults: prior rate-limit hits of this client in the
current window, the live session bound to its cookie, and the identities
the (externally implemented) authentication chain would establish. -/
structure Request where
  method : String
  path : String
  origin : Option String := none
  contentType : ContentType := .otherType
  bodyBytes : Nat := 0
  rateHits : Nat := 0
  sessionId : String := "sid"
  incomingSession : Option SessionData := none
  tokenUser : Option Nat := none
  rememberUser : Option Nat := none
  userRecordFound : Bool := true
  nowIso : String := ""
  uptimeSeconds : Nat := 0
  dbConnected : Bool := true
deriving Repr

/-- Response body: banner text, a JSON payload, an empty body, or a
response delegated to one of the mounted sub-routers. -/
inductive RBody where
  | text (s : String)
  | json (j : Json)
  | empty
  | delegated (mount : String)
deriving Repr, BEq

/-- An HTTP response as far as the claims observe it. -/
structure Response where
  status : Nat
  body : RBody
  accessControlMaxAge : Option Nat := none
deriving Repr, BEq

/-- An error passed to `next(err)`: an optional declared status, the
message, and a stack rendering. -/
structure Err where
  status : Option Nat := none
  message : String
  stack : String := ""
deriving Repr, BEq

/-- The stages registered on the app, in source order. -/
inductive Stage where
  | corsStage
  | optionsAllStage
  | helmetStage
  | limiterStage
  | rootRoute
  | faviconRoute
  | cookieParserStage
  | jsonBodyStage
  | urlencodedBodyStage
  | sessionStage
  | morganStage
  | sessionTestRoute
  | healthRoute
  | jwtAuthStage
  | rememberTokenStage
  | loadUserStage
  | authRouter
  | usersRouter
  | searchRouter
  | testRouter
  | propertiesRouter
  | notFoundHandler
deriving Repr, DecidableEq

open Stage

/-- Registration order of the middleware stack, read off the source
top-to-bottom; morgan is registered only outside production. -/
def pipeline (production : Bool) : List Stage :=
  [corsStage, optionsAllStage, helmetStage, limiterStage,
   rootRoute, faviconRoute,
   cookieParserStage, jsonBodyStage, urlencodedBodyStage, sessionStage] ++
  (if production then [] else [morganStage]) ++
  [sessionTestRoute, healthRoute,
   jwtAuthStage, rememberTokenStage, loadUserStage,
   authRouter, usersRouter, searchRouter, testRouter, propertiesRouter,
   notFoundHandler]

/-- Mutable per-request context threaded through the stages. -/
structure Ctx where
  req : Request
  trace : List Stage := []
  log : List String := []
  corsHeadersSet : Bool := false
  securityHeaders : Bool := false
  cookiesParsed : Bool := false
  bodyParsed : Bool := false
  session : Option SessionData := none
  sessionModified : Bool := false
  identity : Option Nat := none
  userLoaded : Bool := false
deriving Repr

/-- Result of running one stage. -/
inductive StageResult where
  | next (ctx : Ctx)
  | respond (ctx : Ctx) (r : Response)
  | err (ctx : Ctx) (e : Err)

/-- Express mount matching for `app.use(mount, router)`: the path equals
the mount point or continues it with a slash. -/
def mountMatch (mount path : String) : Bool :=
  path == mount || (mount ++ "/").data.isPrefixOf path.data

/-- Modelled from the spec: the five mounted sub-routers live in
`routes/*.js`, which is not under `src/`; per the spec each owns every
path under its mount and its internal contract is external to this
component, so a matching request is answered with a delegated response. -/
def routerStage (mount : String) (ctx : Ctx) : StageResult :=
  if mountMatch mount ctx.req.path then
    .respond ctx { status := 200, body := .delegated mount }
  else
    .next ctx

/-- The 10mb request-body limit of `express.json` / `express.urlencoded`,
in bytes. -/
def bodyLimitBytes : Nat := 10 * 1024 * 1024

/-- A body parser with the configured limit: on a matching content type,
a body within the limit is parsed and attached, an oversized body raises
the 413 entity-too-large error; other content types pass through. -/
def bodyParserStage (applies : Bool) (ctx : Ctx) : StageResult :=
  if applies && decide (bodyLimitBytes < ctx.req.bodyBytes) then
    .err ctx { status := some 413, message := "request entity too large",
               stack := "PayloadTooLargeError" }
  else
    .next { ctx with
      bodyParsed := ctx.bodyParsed || (applies && decide (ctx.req.bodyBytes ≤ bodyLimitBytes)) }

/-- The behavior of one registered stage on a request context.

The CORS stage applies `corsOrigin`; a denial forwards the error (after
the `console.warn`), and a preflight `OPTIONS` request is answered
terminally with `optionsSuccessStatus` and the 24-hour `maxAge` header,
since `preflightContinue` is false. The authentication chain is modelled
from the spec: `middleware/jwtAuth.js` and `middleware/auth.js` are not
under `src/`; per the spec each stage attempts to authenticate and
otherwise passes through unauthenticated, and the user loader clears the
identity when the lookup fails. -/
def runStage (env : ProcessEnv) (s : Stage) (ctx : Ctx) : StageResult :=
  match s with
  | corsStage =>
      match corsOrigin ctx.req.origin with
      | .deny msg =>
          .err { ctx with log := ctx.log ++ [msg] }
            { status := none, message := msg, stack := "Error: " ++ msg }
      | .allow =>
          let ctx := { ctx with corsHeadersSet := true }
          if ctx.req.method == "OPTIONS" then
            .respond ctx { status := corsOptionsSuccessStatus, body := .empty,
                           accessControlMaxAge := some corsMaxAge }
          else
            .next ctx
  | optionsAllStage =>
      if ctx.req.method == "OPTIONS" then
        match corsOrigin ctx.req.origin with
        | .deny msg =>
            .err { ctx with log := ctx.log ++ [msg] }
              { status := none, message := msg, stack := "Error: " ++ msg }
        | .allow =>
            .respond { ctx with corsHeadersSet := true }
              { status := corsOptionsSuccessStatus, body := .empty,
                accessControlMaxAge := some corsMaxAge }
      else
        .next ctx
  | helmetStage =>
      .next { ctx with securityHeaders := true }
  | limiterStage =>
      if (ctx.req.rateHits + 1 : Int) ≤ rateMaxRequests env then
        .next ctx
      else
        .respond ctx { status := 429, body := .json rateLimitPayload }
  | rootRoute =>
      if ctx.req.method == "GET" && ctx.req.path == "/" then
        .respond ctx { status := 200, body := .text "HomeSwift API is running 🚀" }
      else
        .next ctx
  | faviconRoute =>
      if ctx.req.method == "GET" && ctx.req.path == "/favicon.ico" then
        .respond ctx { status := 204, body := .empty }
      else
        .next ctx
  | cookieParserStage =>
      .next { ctx with cookiesParsed := true }
  | jsonBodyStage =>
      bodyParserStage (ctx.req.contentType == .jsonType) ctx
  | urlencodedBodyStage =>
      bodyParserStage (ctx.req.contentType == .urlencodedType) ctx
  | sessionStage =>
      .next { ctx with session := some (ctx.req.incomingSession.getD {}) }
  | morganStage =>
      .next { ctx with log := ctx.log ++ ["morgan: " ++ ctx.req.method ++ " " ++ ctx.req.path] }
  | sessionTestRoute =>
      if ctx.req.method == "GET" && ctx.req.path == "/api/session-test" then
        match ctx.session with
        | none =>
            .err ctx { status := none,
                       message := "Cannot read properties of undefined (reading 'views')" }
        | some s =>
            let (s1, v) := sessionTestHandler s
            .respond { ctx with session := some s1, sessionModified := true }
              { status := 200,
                body := .json (.obj
                  [("message", .str "Session test successful"),
                   ("views", .num v),
                   ("sessionId", .str ctx.req.sessionId),
                   ("session", sessionJson s1)]) }
      else
        .next ctx
  | healthRoute =>
      if ctx.req.method == "GET" && ctx.req.path == "/health" then
        .respond ctx
          { status := 200,
            body := .json (.obj
              [("status", .str "OK"),
               ("timestamp", .str ctx.req.nowIso),
               ("uptime", .num ctx.req.uptimeSeconds),
               ("database", .str (if ctx.req.dbConnected then "connected" else "disconnected"))]) }
      else
        .next ctx
  | jwtAuthStage =>
      .next { ctx with identity := ctx.req.tokenUser }
  | rememberTokenStage =>
      .next { ctx with identity := ctx.identity.orElse (fun _ => ctx.req.rememberUser) }
  | loadUserStage =>
      .next { ctx with
        userLoaded := ctx.identity.isSome && ctx.req.userRecordFound,
        identity := if ctx.req.userRecordFound then ctx.identity else none }
  | authRouter => routerStage "/api/auth" ctx
  | usersRouter => routerStage "/api/users" ctx
  | searchRouter => routerStage "/api/search" ctx
  | testRouter => routerStage "/api/test" ctx
  | propertiesRouter => routerStage "/api/properties" ctx
  | notFoundHandler =>
      .respond ctx
        { status := 404,
          body := .json (.obj [("success", .bool false), ("error", .str "Route not found")]) }

/-- Outcome of running the registered stack on a request. -/
inductive Outcome where
  | responded (ctx : Ctx) (r : Response)
  | errored (ctx : Ctx) (e : Err)
  | fellThrough (ctx : Ctx)

/-- Run the stages in order; each visited stage is appended to the trace,
and the first terminal result stops the walk. -/
def runStages (env : ProcessEnv) : List Stage → Ctx → Outcome
  | [], ctx => .fellThrough ctx
  | s :: rest, ctx =>
      match runStage env s { ctx with trace := ctx.trace ++ [s] } with
      | .next ctx1 => runStages env rest ctx1
      | .respond ctx1 r => .responded ctx1 r
      | .err ctx1 e => .errored ctx1 e

/-! ## Error handlers -/

/-- Result of one error-handling middleware: a terminal response, or a
pass to the next error handler. -/
inductive ErrResult where
  | respond (r : Response)
  | pass
deriving Repr, BEq

/-- The first-registered (global) error handler, lines 217–224: status
`err.status || 500`, body `{ success: false, error: <generic in
production, the original message otherwise> }`. It always responds. -/
def globalErrorHandler (env : ProcessEnv) (e : Err) : ErrResult :=
  .respond
    { status := e.status.getD 500,
      body := .json (.obj
        [("success", .bool false),
         ("error", .str (if isProduction env then "Something went wrong!" else e.message))]) }

/-- The second-registered error handler, lines 240–246: status
`err.status || 500`, a body carrying the raw message (or the fallback
phrase Internal Server Error when the message is empty) plus a stack in
development. It also always responds, but is registered after a handler
that never passes. -/
def lastErrorHandler (env : ProcessEnv) (e : Err) : ErrResult :=
  .respond
    { status := e.status.getD 500,
      body := .json (.obj
        ([("error", .str (jsOrStr (some e.message) "Internal Server Error"))] ++
         (if env.nodeEnv == some "development" then [("stack", .str e.stack)] else []))) }

/-- The error-handling middlewares, in registration order. -/
def errorHandlers : List (ProcessEnv → Err → ErrResult) :=
  [globalErrorHandler, lastErrorHandler]

/-- Walk the error handlers from index `i`: the first that responds wins. -/
def dispatchErrorFrom (env : ProcessEnv) (e : Err) :
    List (ProcessEnv → Err → ErrResult) → Nat → Option (Nat × Response)
  | [], _ => none
  | h :: rest, i =>
      match h env e with
      | .respond r => some (i, r)
      | .pass => dispatchErrorFrom env e rest (i + 1)

/-- Dispatch an error raised during the pipeline to the registered error
handlers: the index of the handler that responded, and its response. When
none responds Express would fall back to its default handler; the first
registered handler always responds, so that never happens. -/
def dispatchError (env : ProcessEnv) (e : Err) : Option (Nat × Response) :=
  dispatchErrorFrom env e errorHandlers 0

/-- Everything the claims observe about the processing of one request. -/
structure HandleResult where
  finalCtx : Ctx
  response : Option Response
  errorHandlerUsed : Option Nat
deriving Repr

/-- Process one request through the registered stack: a terminal stage
response is returned as is; a raised error is dispatched to the error
handlers exactly once. -/
def handleRequest (env : ProcessEnv) (req : Request) : HandleResult :=
  match runStages env (pipeline (isProduction env)) { req := req } with
  | .responded ctx r =>
      { finalCtx := ctx, response := some r, errorHandlerUsed := none }
  | .errored ctx e =>
      match dispatchError env e with
      | some (i, r) => { finalCtx := ctx, response := some r, errorHandlerUsed := some i }
      | none => { finalCtx := ctx, response := none, errorHandlerUsed := none }
  | .fellThrough ctx =>
      { finalCtx := ctx, response := none, errorHandlerUsed := none }

/-! ## Helper lemmas -/

/-- Stripping a literal from itself followed by anything leaves the rest. -/
theorem stripLit_self_append (ps cs : List Char) : stripLit ps (ps ++ cs) = some cs := by
  induction ps with
  | nil => rfl
  | cons p ps ih => simp [stripLit, ih]

/-- The https scheme prefix never strips off a plain-http origin. -/
theorem stripLit_https_http (cs : List Char) :
    stripLit "https://localhost".data ('h' :: 't' :: 't' :: 'p' :: ':' :: cs) = none := by
  have h2 : "https://localhost".data =
      ['h', 't', 't', 'p', 's', ':', '/', '/', 'l', 'o', 'c', 'a', 'l', 'h', 'o', 's', 't'] := by
    decide
  rw [h2]
  simp only [stripLit, if_pos rfl]
  rw [if_neg (show ¬(':' = 's') by decide)]
  simp

/-- The localhost regex accepts a colon and an arbitrary digit port after
either scheme. -/
theorem localhostMatch_port (d : String) (hd : d ≠ "")
    (hdig : d.data.all Char.isDigit = true) :
    localhostMatch ("http://localhost:" ++ d) = true ∧
    localhostMatch ("https://localhost:" ++ d) = true := by
  have hne : d.data ≠ [] := fun h => hd (String.ext (h.trans rfl))
  have hHttp : "http://localhost".data =
      ['h', 't', 't', 'p', ':', '/', '/', 'l', 'o', 'c', 'a', 'l', 'h', 'o', 's', 't'] := by
    decide
  have h1 : ("http://localhost:" ++ d).data = "http://localhost".data ++ (':' :: d.data) := by
    rw [String.data_append]
    have h0 : "http://localhost:".data = "http://localhost".data ++ [':'] := by decide
    rw [h0, List.append_assoc]
    rfl
  have h2 : ("https://localhost:" ++ d).data = "https://localhost".data ++ (':' :: d.data) := by
    rw [String.data_append]
    have h0 : "https://localhost:".data = "https://localhost".data ++ [':'] := by decide
    rw [h0, List.append_assoc]
    rfl
  have hshape : "http://localhost".data ++ (':' :: d.data) =
      'h' :: 't' :: 't' :: 'p' :: ':' ::
        ('/' :: '/' :: 'l' :: 'o' :: 'c' :: 'a' :: 'l' :: 'h' :: 'o' :: 's' :: 't' :: ':' ::
          d.data) := by
    rw [hHttp]
    rfl
  constructor
  · rw [localhostMatch, h1, hshape, stripLit_https_http, ← hshape, stripLit_self_append]
    simp [localhostTail, List.isEmpty_iff, hne, hdig]
  · rw [localhostMatch, h2, stripLit_self_append]
    simp [localhostTail, List.isEmpty_iff, hne, hdig]

/-- In-window hits accumulate one count each. -/
theorem rateHitMany_count (wMs maxR now : Nat) (hw : 0 < wMs) (k c : Nat) :
    rateHitMany wMs maxR now k (some { count := c, windowStart := now }) =
      some { count := c + k, windowStart := now } := by
  induction k generalizing c with
  | zero => simp [rateHitMany]
  | succ k ih =>
      have hin : now < now + wMs := Nat.lt_add_of_pos_right hw
      rw [rateHitMany]
      simp only [rateHit, if_pos hin]
      rw [ih]
      congr 2
      omega

/-! ## Claims -/

/-- Claim C1, counterexample: the request `GET /` is served by the fixed
root endpoint, yet cookie parsing, body parsing and session resolution
never ran on it — the root handler is registered before those stages, so
the claimed order (all fixed endpoints after cookie/body/session) is
false on the code. -/
theorem C1_fixed_endpoint_order_counterexample :
    (handleRequest {} { method := "GET", path := "/" }).response =
      some { status := 200, body := .text "HomeSwift API is running 🚀" } ∧
    (handleRequest {} { method := "GET", path := "/" }).finalCtx.trace =
      [Stage.corsStage, Stage.optionsAllStage, Stage.helmetStage, Stage.limiterStage,
       Stage.rootRoute] ∧
    Stage.cookieParserStage ∉ (handleRequest {} { method := "GET", path := "/" }).finalCtx.trace ∧
    Stage.jsonBodyStage ∉ (handleRequest {} { method := "GET", path := "/" }).finalCtx.trace ∧
    Stage.urlencodedBodyStage ∉
      (handleRequest {} { method := "GET", path := "/" }).finalCtx.trace ∧
    Stage.sessionStage ∉ (handleRequest {} { method := "GET", path := "/" }).finalCtx.trace := by
  refine ⟨rfl, rfl, ?_, ?_, ?_, ?_⟩ <;> decide

/-- Claim C1 (amended): stages execute in registration order — CORS
evaluation, preflight short-circuit, security headers, rate-limit check,
then the root and favicon fixed endpoints, then cookie parsing, body
parsing, session resolution, request logging (non-production only), then
the session-test and health fixed endpoints, then the authentication
chain, route dispatch, the not-found fallback and the error handlers.
Requests served by the health and session-test endpoints have passed
cookie parsing, body parsing and session resolution; requests served by
the root and favicon endpoints have not. -/
theorem C1_pipeline_order :
    (∀ p : Bool, pipeline p =
      [Stage.corsStage, Stage.optionsAllStage, Stage.helmetStage, Stage.limiterStage,
       Stage.rootRoute, Stage.faviconRoute, Stage.cookieParserStage, Stage.jsonBodyStage,
       Stage.urlencodedBodyStage, Stage.sessionStage] ++
      (if p then [] else [Stage.morganStage]) ++
      [Stage.sessionTestRoute, Stage.healthRoute, Stage.jwtAuthStage,
       Stage.rememberTokenStage, Stage.loadUserStage, Stage.authRouter, Stage.usersRouter,
       Stage.searchRouter, Stage.testRouter, Stage.propertiesRouter,
       Stage.notFoundHandler]) ∧
    (handleRequest {} { method := "GET", path := "/health" }).finalCtx.trace =
      [Stage.corsStage, Stage.optionsAllStage, Stage.helmetStage, Stage.limiterStage,
       Stage.rootRoute, Stage.faviconRoute, Stage.cookieParserStage, Stage.jsonBodyStage,
       Stage.urlencodedBodyStage, Stage.sessionStage, Stage.morganStage,
       Stage.sessionTestRoute, Stage.healthRoute] ∧
    (handleRequest {} { method := "GET", path := "/api/session-test" }).finalCtx.trace =
      [Stage.corsStage, Stage.optionsAllStage, Stage.helmetStage, Stage.limiterStage,
       Stage.rootRoute, Stage.faviconRoute, Stage.cookieParserStage, Stage.jsonBodyStage,
       Stage.urlencodedBodyStage, Stage.sessionStage, Stage.morganStage,
       Stage.sessionTestRoute] ∧
    (handleRequest {} { method := "GET", path := "/" }).finalCtx.trace =
      [Stage.corsStage, Stage.optionsAllStage, Stage.helmetStage, Stage.limiterStage,
       Stage.rootRoute] ∧
    (handleRequest {} { method := "GET", path := "/favicon.ico" }).finalCtx.trace =
      [Stage.corsStage, Stage.optionsAllStage, Stage.helmetStage, Stage.limiterStage,
       Stage.rootRoute, Stage.faviconRoute] := by
  refine ⟨fun p => ?_, rfl, rfl, rfl, rfl⟩
  cases p <;> rfl

/-- Claim C2: a request with no origin is allowed (with credentials
enabled); a request with an origin is allowed iff the origin matches
some allow-list entry — the localhost regex (any port), the
`.vercel.app` suffix regex, or one of the two exact production domains;
a non-matching origin aborts the request at the CORS stage with the CORS
error (status 500 through the terminal handler), emits the warning, and
no later stage runs. -/
theorem C2_origin_authorization :
    (corsOrigin none = .allow ∧ corsCredentials = true) ∧
    (∀ o : String, corsOrigin (some o) = .allow ↔ isAllowedOrigin o = true) ∧
    (∀ o : String, isAllowedOrigin o = true ↔
      (localhostMatch o = true ∨ vercelMatch o = true ∨
       o = "https://homeswift.ai" ∨ o = "https://www.homeswift.ai")) ∧
    (localhostMatch "http://localhost" = true ∧ localhostMatch "https://localhost" = true ∧
     ∀ d : String, d ≠ "" → d.data.all Char.isDigit = true →
       localhostMatch ("http://localhost:" ++ d) = true ∧
       localhostMatch ("https://localhost:" ++ d) = true) ∧
    (∀ (env : ProcessEnv) (req : Request) (o : String),
      req.origin = some o → isAllowedOrigin o = false →
      (handleRequest env req).response =
        some { status := 500,
               body := .json (.obj
                 [("success", .bool false),
                  ("error", .str (if isProduction env then "Something went wrong!"
                                  else "CORS policy: " ++ o ++ " not allowed"))]) } ∧
      ("CORS policy: " ++ o ++ " not allowed") ∈ (handleRequest env req).finalCtx.log ∧
      (handleRequest env req).finalCtx.trace = [Stage.corsStage]) := by
  refine ⟨⟨rfl, rfl⟩, ?_, ?_, ⟨by decide, by decide, localhostMatch_port⟩, ?_⟩
  · intro o
    cases h : isAllowedOrigin o <;> simp [corsOrigin, h]
  · intro o
    simp only [isAllowedOrigin, allowedOrigins, List.any_cons, List.any_nil,
               patternMatches, Bool.or_eq_true, Bool.or_eq_false_iff, beq_iff_eq]
    constructor
    · rintro (h | h | h | (h | h))
      · exact Or.inl h
      · exact Or.inr (Or.inl h)
      · exact Or.inr (Or.inr (Or.inl h.symm))
      · exact Or.inr (Or.inr (Or.inr h.symm))
      · exact absurd h (by simp)
    · rintro (h | h | h | h)
      · exact Or.inl h
      · exact Or.inr (Or.inl h)
      · exact Or.inr (Or.inr (Or.inl h.symm))
      · exact Or.inr (Or.inr (Or.inr (Or.inl h.symm)))
  · intro env req o ho hno
    unfold handleRequest
    simp [pipeline, runStages, runStage, corsOrigin, ho, hno,
          dispatchError, dispatchErrorFrom, errorHandlers, globalErrorHandler]

/-- Witness for claim C2: a concrete localhost origin with a port is
allowed, and a concrete foreign origin is denied, never reaching any
stage beyond CORS evaluation. -/
theorem C2_origin_authorization_witness :
    localhostMatch ("http://localhost:" ++ "5173") = true ∧
    isAllowedOrigin "https://evil.example.com" = false ∧
    (handleRequest {}
        { method := "GET", path := "/api/users",
          origin := some "https://evil.example.com" }).finalCtx.trace =
      [Stage.corsStage] := by
  refine ⟨(C2_origin_authorization.2.2.2.1.2.2 "5173" (by decide) (by decide)).1,
          by decide, ?_⟩
  exact (C2_origin_authorization.2.2.2.2 {} _ "https://evil.example.com" rfl (by decide)).2.2

/-- Claim C3: an OPTIONS request to any path whose origin passes the CORS
decision is answered terminally by the CORS stage with the no-content
status 204 and the allow headers (the 24-hour max-age directive
included); no downstream stage runs, and continue semantics are
disabled. -/
theorem C3_preflight_short_circuit :
    (∀ (env : ProcessEnv) (req : Request),
      req.method = "OPTIONS" → corsOrigin req.origin = .allow →
      (handleRequest env req).response =
        some { status := 204, body := .empty, accessControlMaxAge := some corsMaxAge } ∧
      (handleRequest env req).finalCtx.corsHeadersSet = true ∧
      (handleRequest env req).finalCtx.trace = [Stage.corsStage]) ∧
    corsMaxAge = 24 * 60 * 60 ∧
    corsPreflightContinue = false ∧
    corsOptionsSuccessStatus = 204 := by
  refine ⟨?_, by decide, rfl, rfl⟩
  intro env req hm hc
  unfold handleRequest
  simp [pipeline, runStages, runStage, hc, hm, corsOptionsSuccessStatus, corsMaxAge]

/-- Witness for claim C3: a concrete preflight request to a business path
from an allow-listed origin is answered 204 with the cache directive and
never reaches a second stage. -/
theorem C3_preflight_short_circuit_witness :
    (handleRequest {}
        { method := "OPTIONS", path := "/api/auth/login",
          origin := some "https://preview.vercel.app" }).response =
      some { status := 204, body := .empty, accessControlMaxAge := some corsMaxAge } ∧
    (handleRequest {}
        { method := "OPTIONS", path := "/api/auth/login",
          origin := some "https://preview.vercel.app" }).finalCtx.trace =
      [Stage.corsStage] := by
  have h := C3_preflight_short_circuit.1 {}
    { method := "OPTIONS", path := "/api/auth/login",
      origin := some "https://preview.vercel.app" } rfl (by decide)
  exact ⟨h.1, h.2.2⟩

/-- Claim C4: session and proxy configuration is a function of the
deployment-mode flag alone — production forces the secure cookie flag,
cross-site policy none, the fixed production domain, and proxy trust in
both the session stage and the app; non-production uses the
auto-negotiated secure flag, policy lax, domain localhost, and no proxy
trust. -/
theorem C4_environment_configuration :
    (∀ env : ProcessEnv, isProduction env = true →
      (sessionConfig env).cookieSecure = .flag true ∧
      (sessionConfig env).cookieSameSite = "none" ∧
      (sessionConfig env).cookieDomain = ".homeswift-ai.vercel.app" ∧
      (sessionConfig env).proxy = true ∧
      trustProxy env = true) ∧
    (∀ env : ProcessEnv, isProduction env = false →
      (sessionConfig env).cookieSecure = .auto ∧
      (sessionConfig env).cookieSameSite = "lax" ∧
      (sessionConfig env).cookieDomain = "localhost" ∧
      (sessionConfig env).proxy = false ∧
      trustProxy env = false) := by
  constructor <;> intro env h <;> simp [sessionConfig, trustProxy, h]

/-- Witness for claim C4: the two deployment modes instantiated — a
production environment and an empty environment. -/
theorem C4_environment_configuration_witness :
    (sessionConfig { nodeEnv := some "production" }).cookieSameSite = "none" ∧
    (sessionConfig { nodeEnv := some "production" }).cookieSecure = .flag true ∧
    (sessionConfig {}).cookieSameSite = "lax" ∧
    (sessionConfig {}).cookieSecure = .auto := by
  refine ⟨(C4_environment_configuration.1 _ (by decide)).2.1,
          (C4_environment_configuration.1 _ (by decide)).1,
          (C4_environment_configuration.2 {} (by decide)).2.1,
          (C4_environment_configuration.2 {} (by decide)).1⟩

/-- Claim C5: the configured session lifecycle — a two-hour sliding
expiry and a fifteen-minute sweep period; a session is stored on the
first request that modifies it (an untouched new session is not stored,
matching the disabled save-uninitialized flag); every request bound to a
stored session refreshes its expiry to two hours from now (modified data
is rewritten, unmodified data merely touched, matching the disabled
resave flag); and the periodic sweep keeps exactly the unexpired
entries. -/
theorem C5_session_lifecycle :
    (sessionMaxAgeMs = 1000 * 60 * 60 * 2 ∧ sessionCheckPeriodMs = 15 * 60 * 1000) ∧
    (∀ env : ProcessEnv,
      (sessionConfig env).resave = false ∧
      (sessionConfig env).saveUninitialized = false ∧
      (sessionConfig env).cookieMaxAgeMs = sessionMaxAgeMs ∧
      (sessionConfig env).storeCheckPeriodMs = sessionCheckPeriodMs) ∧
    (∀ (now : Nat) (sid : String) (d : SessionData),
      sessionAfterRequest now sid true d [] =
        [{ sid := sid, data := d, expiresAt := now + sessionMaxAgeMs }] ∧
      sessionAfterRequest now sid false d [] = []) ∧
    (∀ (now : Nat) (sid : String) (d0 d1 : SessionData) (exp0 : Nat),
      sessionAfterRequest now sid false d0 [{ sid := sid, data := d1, expiresAt := exp0 }] =
        [{ sid := sid, data := d1, expiresAt := now + sessionMaxAgeMs }] ∧
      sessionAfterRequest now sid true d0 [{ sid := sid, data := d1, expiresAt := exp0 }] =
        [{ sid := sid, data := d0, expiresAt := now + sessionMaxAgeMs }]) ∧
    (∀ (now : Nat) (e : StoreEntry) (store : SessionStore),
      e ∈ sessionSweep now store ↔ e ∈ store ∧ now < e.expiresAt) := by
  refine ⟨⟨rfl, rfl⟩, ?_, ?_, ?_, ?_⟩
  · intro env
    exact ⟨rfl, rfl, rfl, rfl⟩
  · intro now sid d
    exact ⟨rfl, rfl⟩
  · intro now sid d0 d1 exp0
    constructor <;> simp [sessionAfterRequest]
  · intro now e store
    simp [sessionSweep, List.mem_filter]

/-- Claim C6: the limiter defaults to a 15-minute window and a ceiling
of 100 requests, both overridable through the environment; from one
client, each of the first ceiling-many hits inside a window is allowed
and the next one is rejected, with the structured rate-limit payload
(distinct from the not-found payload and from the error-handler shape);
a hit after the window has elapsed is allowed again. -/
theorem C6_rate_limiter :
    (rateWindowMs {} = 15 * 60 * 1000 ∧ rateMaxRequests {} = 100) ∧
    (∀ (s : String) (n : Int), parseIntJs (some s) = some n → n ≠ 0 →
      rateWindowMs { rateLimitWindowMs := some s } = n ∧
      rateMaxRequests { rateLimitMaxRequests := some s } = n) ∧
    (∀ wMs maxR now j : Nat, 0 < wMs →
      rateHit wMs maxR now (rateHitMany wMs maxR now j none) =
        ({ count := j + 1, windowStart := now }, decide (j + 1 ≤ maxR))) ∧
    (∀ wMs maxR now j : Nat, 0 < wMs → j < maxR →
      (rateHit wMs maxR now (rateHitMany wMs maxR now j none)).2 = true) ∧
    (∀ wMs maxR now : Nat, 0 < wMs →
      (rateHit wMs maxR now (rateHitMany wMs maxR now maxR none)).2 = false) ∧
    (∀ (wMs maxR now : Nat) (rec : RateRecord), rec.windowStart + wMs ≤ now →
      rateHit wMs maxR now (some rec) =
        ({ count := 1, windowStart := now }, decide (1 ≤ maxR))) ∧
    (∀ (env : ProcessEnv) (ctx : Ctx),
      ((ctx.req.rateHits + 1 : Int) ≤ rateMaxRequests env →
        runStage env Stage.limiterStage ctx = .next ctx) ∧
      (rateMaxRequests env < (ctx.req.rateHits + 1 : Int) →
        runStage env Stage.limiterStage ctx =
          .respond ctx { status := 429, body := .json rateLimitPayload })) ∧
    (rateLimitPayload ≠ .obj [("success", .bool false), ("error", .str "Route not found")] ∧
     ∀ msg : String, rateLimitPayload ≠ .obj [("success", .bool false), ("error", .str msg)]) := by
  have hstep : ∀ wMs maxR now j : Nat, 0 < wMs →
      rateHit wMs maxR now (rateHitMany wMs maxR now j none) =
        ({ count := j + 1, windowStart := now }, decide (j + 1 ≤ maxR)) := by
    intro wMs maxR now j hw
    cases j with
    | zero =>
        simp [rateHitMany, rateHit]
    | succ k =>
        have hin : now < now + wMs := Nat.lt_add_of_pos_right hw
        rw [rateHitMany]
        have h1 : (rateHit wMs maxR now none).1 = { count := 1, windowStart := now } := by
          simp [rateHit]
        rw [h1, rateHitMany_count wMs maxR now hw k 1]
        simp only [rateHit, if_pos hin]
        rw [Nat.add_comm 1 k]
  refine ⟨⟨rfl, rfl⟩, ?_, hstep, ?_, ?_, ?_, ?_, ?_, ?_⟩
  · intro s n hs hn
    constructor <;> simp [rateWindowMs, rateMaxRequests, hs, jsOrInt, hn]
  · intro wMs maxR now j hw hj
    rw [hstep wMs maxR now j hw]
    simp [Nat.succ_le_of_lt hj]
  · intro wMs maxR now hw
    rw [hstep wMs maxR now maxR hw]
    simp
  · intro wMs maxR now rec hrec
    have hout : ¬(now < rec.windowStart + wMs) := by omega
    simp [rateHit, hout]
  · intro env ctx
    constructor
    · intro h
      simp [runStage, h]
    · intro h
      simp [runStage, Int.not_le.mpr h]
  · simp [rateLimitPayload]
  · intro msg
    simp [rateLimitPayload]

/-- Witness for claim C6: with the default configuration (ceiling 100)
and a one-window scenario, the 100th hit passes, the 101st hit is
rejected, and a hit after the window has elapsed passes again. -/
theorem C6_rate_limiter_witness :
    (rateHit 900000 100 0 (rateHitMany 900000 100 0 99 none)).2 = true ∧
    (rateHit 900000 100 0 (rateHitMany 900000 100 0 100 none)).2 = false ∧
    rateHit 900000 100 900000 (some { count := 100, windowStart := 0 }) =
      ({ count := 1, windowStart := 900000 }, decide (1 ≤ 100)) ∧
    rateWindowMs { rateLimitWindowMs := some "60000" } = 60000 := by
  refine ⟨C6_rate_limiter.2.2.2.1 900000 100 0 99 (by decide) (by decide),
          C6_rate_limiter.2.2.2.2.1 900000 100 0 (by decide),
          C6_rate_limiter.2.2.2.2.2.1 900000 100 900000 { count := 100, windowStart := 0 }
            (by decide),
          (C6_rate_limiter.2.1 "60000" 60000 (by decide) (by decide)).1⟩

/-- Claim C7: the session-test endpoint starts a fresh session at view
count 1, each further call with the same session answers a count exactly
one above the previous answer, and the JSON response carries the
message, the running count, the session id and the raw session object. -/
theorem C7_session_test_counter :
    (sessionTestHandler {} = ({ views := some 1 }, 1)) ∧
    (∀ s : SessionData,
      (sessionTestHandler (sessionTestHandler s).1).2 = (sessionTestHandler s).2 + 1) ∧
    (∀ (env : ProcessEnv) (req : Request) (s : SessionData),
      req.method = "GET" → req.path = "/api/session-test" →
      corsOrigin req.origin = .allow →
      (req.rateHits + 1 : Int) ≤ rateMaxRequests env →
      req.bodyBytes ≤ bodyLimitBytes →
      req.incomingSession = some s →
      (handleRequest env req).response =
        some { status := 200,
               body := .json (.obj
                 [("message", .str "Session test successful"),
                  ("views", .num (sessionTestHandler s).2),
                  ("sessionId", .str req.sessionId),
                  ("session", sessionJson (sessionTestHandler s).1)]) }) := by
  refine ⟨rfl, ?_, ?_⟩
  · intro s
    rcases s with ⟨v⟩
    rcases v with _ | n
    · simp [sessionTestHandler, viewsFalsy]
    · simp [sessionTestHandler, viewsFalsy]
      split_ifs <;> omega
  · intro env req s hm hp hc hr hb hs
    have hb' : decide (bodyLimitBytes < req.bodyBytes) = false := by
      simp [Nat.not_lt.mpr hb]
    unfold handleRequest
    cases hpr : isProduction env <;>
      simp [pipeline, runStages, runStage, bodyParserStage, hc, hm, hp, hr, hb', hpr, hs]

/-- Witness for claim C7: two consecutive calls on one session through
the pipeline — the fresh session answers 1 and the follow-up answers 2. -/
theorem C7_session_test_counter_witness :
    (handleRequest {}
        { method := "GET", path := "/api/session-test",
          incomingSession := some {} }).response =
      some { status := 200,
             body := .json (.obj
               [("message", .str "Session test successful"),
                ("views", .num 1),
                ("sessionId", .str "sid"),
                ("session", .obj [("views", .num 1)])]) } ∧
    (handleRequest {}
        { method := "GET", path := "/api/session-test",
          incomingSession := some { views := some 1 } }).response =
      some { status := 200,
             body := .json (.obj
               [("message", .str "Session test successful"),
                ("views", .num 2),
                ("sessionId", .str "sid"),
                ("session", .obj [("views", .num 2)])]) } := by
  constructor
  · exact C7_session_test_counter.2.2 {} _ {} rfl rfl rfl (by decide) (by decide) rfl
  · exact C7_session_test_counter.2.2 {} _ { views := some 1 } rfl rfl rfl (by decide)
      (by decide) rfl

/-- Claim C8: a request (other than a preflight) that passes CORS, the
rate limit and the body-size limit, and whose path matches no fixed
endpoint and no mounted route, is answered 404 with exactly the body
with success false and the error phrase Route not found. -/
theorem C8_not_found_fallback :
    ∀ (env : ProcessEnv) (req : Request),
      (req.method == "OPTIONS") = false →
      corsOrigin req.origin = .allow →
      (req.rateHits + 1 : Int) ≤ rateMaxRequests env →
      req.bodyBytes ≤ bodyLimitBytes →
      (req.path == "/") = false →
      (req.path == "/favicon.ico") = false →
      (req.path == "/api/session-test") = false →
      (req.path == "/health") = false →
      mountMatch "/api/auth" req.path = false →
      mountMatch "/api/users" req.path = false →
      mountMatch "/api/search" req.path = false →
      mountMatch "/api/test" req.path = false →
      mountMatch "/api/properties" req.path = false →
      (handleRequest env req).response =
        some { status := 404,
               body := .json (.obj
                 [("success", .bool false), ("error", .str "Route not found")]) } := by
  intro env req hm hc hr hb hp1 hp2 hp3 hp4 hm1 hm2 hm3 hm4 hm5
  have hb' : decide (bodyLimitBytes < req.bodyBytes) = false := by
    simp [Nat.not_lt.mpr hb]
  unfold handleRequest
  cases hpr : isProduction env <;>
    simp [pipeline, runStages, runStage, bodyParserStage, routerStage, hc, hm, hr, hb',
          hpr, hp1, hp2, hp3, hp4, hm1, hm2, hm3, hm4, hm5]

/-- Witness for claim C8: the unknown path `/api/nonexistent` receives
the exact 404 payload. -/
theorem C8_not_found_fallback_witness :
    (handleRequest {} { method := "GET", path := "/api/nonexistent" }).response =
      some { status := 404,
             body := .json (.obj
               [("success", .bool false), ("error", .str "Route not found")]) } :=
  C8_not_found_fallback {} { method := "GET", path := "/api/nonexistent" }
    (by decide) rfl (by decide) (by decide) (by decide) (by decide) (by decide) (by decide)
    (by decide) (by decide) (by decide) (by decide) (by decide)

/-- Claim C9: a raised error is dispatched to the error handlers exactly
once, and the first-registered handler answers it — status from the
declared status of the failure, defaulting to 500, with the generic
phrase in production and the original message otherwise; the
second-registered handler never executes (whenever any error handler
runs, it is the one at index 0 of the two registered). -/
theorem C9_terminal_error_handler :
    (∀ (env : ProcessEnv) (e : Err),
      dispatchError env e =
        some (0, { status := e.status.getD 500,
                   body := .json (.obj
                     [("success", .bool false),
                      ("error", .str (if isProduction env then "Something went wrong!"
                                      else e.message))]) })) ∧
    (∀ (env : ProcessEnv) (req : Request),
      (handleRequest env req).errorHandlerUsed = none ∨
      (handleRequest env req).errorHandlerUsed = some 0) ∧
    errorHandlers.length = 2 := by
  refine ⟨fun env e => rfl, ?_, rfl⟩
  intro env req
  unfold handleRequest
  cases h : runStages env (pipeline (isProduction env)) { req := req } with
  | responded ctx r => simp
  | errored ctx e => simp [dispatchError, dispatchErrorFrom, errorHandlers, globalErrorHandler]
  | fellThrough ctx => simp

/-- Claim C10: request bodies are limited to 10mb; a JSON or urlencoded
body within the limit is parsed and attached to the request context, the
body-parsing stages are registered before the session, authentication
and route stages, and an oversized body aborts the request with the 413
entity-too-large failure answered by the first terminal error handler
before the session, authentication or route stages run. -/
theorem C10_body_size_limit :
    (bodyLimitBytes = 10 * 1024 * 1024) ∧
    (∀ (env : ProcessEnv) (ctx : Ctx),
      ctx.req.contentType = .jsonType → ctx.req.bodyBytes ≤ bodyLimitBytes →
      runStage env Stage.jsonBodyStage ctx = .next { ctx with bodyParsed := true }) ∧
    (∀ (env : ProcessEnv) (ctx : Ctx),
      ctx.req.contentType = .urlencodedType → ctx.req.bodyBytes ≤ bodyLimitBytes →
      runStage env Stage.urlencodedBodyStage ctx = .next { ctx with bodyParsed := true }) ∧
    (∀ p : Bool,
      (pipeline p).indexOf Stage.jsonBodyStage < (pipeline p).indexOf Stage.sessionStage ∧
      (pipeline p).indexOf Stage.urlencodedBodyStage <
        (pipeline p).indexOf Stage.sessionStage ∧
      (pipeline p).indexOf Stage.jsonBodyStage < (pipeline p).indexOf Stage.jwtAuthStage ∧
      (pipeline p).indexOf Stage.jsonBodyStage < (pipeline p).indexOf Stage.authRouter) ∧
    (∀ (env : ProcessEnv) (req : Request),
      (req.method == "OPTIONS") = false →
      corsOrigin req.origin = .allow →
      (req.rateHits + 1 : Int) ≤ rateMaxRequests env →
      (req.contentType = .jsonType ∨ req.contentType = .urlencodedType) →
      bodyLimitBytes < req.bodyBytes →
      (req.path == "/") = false →
      (req.path == "/favicon.ico") = false →
      (handleRequest env req).response =
        some { status := 413,
               body := .json (.obj
                 [("success", .bool false),
                  ("error", .str (if isProduction env then "Something went wrong!"
                                  else "request entity too large"))]) } ∧
      (handleRequest env req).errorHandlerUsed = some 0 ∧
      Stage.sessionStage ∉ (handleRequest env req).finalCtx.trace ∧
      Stage.jwtAuthStage ∉ (handleRequest env req).finalCtx.trace ∧
      Stage.rememberTokenStage ∉ (handleRequest env req).finalCtx.trace ∧
      Stage.loadUserStage ∉ (handleRequest env req).finalCtx.trace ∧
      Stage.authRouter ∉ (handleRequest env req).finalCtx.trace ∧
      Stage.usersRouter ∉ (handleRequest env req).finalCtx.trace ∧
      Stage.searchRouter ∉ (handleRequest env req).finalCtx.trace ∧
      Stage.testRouter ∉ (handleRequest env req).finalCtx.trace ∧
      Stage.propertiesRouter ∉ (handleRequest env req).finalCtx.trace ∧
      Stage.notFoundHandler ∉ (handleRequest env req).finalCtx.trace) := by
  refine ⟨rfl, ?_, ?_, ?_, ?_⟩
  · intro env ctx hct hb
    have hb' : decide (bodyLimitBytes < ctx.req.bodyBytes) = false := by
      simp [Nat.not_lt.mpr hb]
    have hb2 : decide (ctx.req.bodyBytes ≤ bodyLimitBytes) = true := by simp [hb]
    simp [runStage, bodyParserStage, hct, hb', hb2]
  · intro env ctx hct hb
    have hb' : decide (bodyLimitBytes < ctx.req.bodyBytes) = false := by
      simp [Nat.not_lt.mpr hb]
    have hb2 : decide (ctx.req.bodyBytes ≤ bodyLimitBytes) = true := by simp [hb]
    simp [runStage, bodyParserStage, hct, hb', hb2]
  · intro p
    cases p <;> refine ⟨by decide, by decide, by decide, by decide⟩
  · intro env req hm hc hr hct hb hp1 hp2
    have hb' : decide (bodyLimitBytes < req.bodyBytes) = true := by simp [hb]
    unfold handleRequest
    rcases hct with hct | hct <;>
      cases hpr : isProduction env <;>
        simp [pipeline, runStages, runStage, bodyParserStage, hc, hm, hr, hb', hct, hpr,
              hp1, hp2, dispatchError, dispatchErrorFrom, errorHandlers, globalErrorHandler]

/-- Witness for claim C10: an 11mb JSON login request is rejected 413 by
the first error handler; the same request one byte under the limit has
its body parsed at the JSON stage. -/
theorem C10_body_size_limit_witness :
    (handleRequest {}
        { method := "POST", path := "/api/auth/login", contentType := .jsonType,
          bodyBytes := 11 * 1024 * 1024 }).response =
      some { status := 413,
             body := .json (.obj
               [("success", .bool false), ("error", .str "request entity too large")]) } ∧
    runStage {} Stage.jsonBodyStage
        { req := { method := "POST", path := "/api/auth/login", contentType := .jsonType,
                   bodyBytes := 1024 } } =
      .next { req := { method := "POST", path := "/api/auth/login", contentType := .jsonType,
                       bodyBytes := 1024 },
              bodyParsed := true } := by
  constructor
  · exact (C10_body_size_limit.2.2.2.2 {}
      { method := "POST", path := "/api/auth/login", contentType := .jsonType,
        bodyBytes := 11 * 1024 * 1024 }
      (by decide) rfl (by decide) (Or.inl rfl) (by decide) (by decide) (by decide)).1
  · exact C10_body_size_limit.2.1 {}
      { req := { method := "POST", path := "/api/auth/login", contentType := .jsonType,
                 bodyBytes := 1024 } } rfl (by decide)

end HomeSwift
